import Mathlib

/-
Shallow embedding of rtoybox-rs (src/src/lib.rs), a minimal SDL2-based GUI
toolkit.  The SDL2 backend (window, canvas, event pump, font subsystem) is
external; its observable behaviour is modelled explicitly:
  * canvas calls and widget draw side effects are recorded as a trace of
    `CanvasOp`s appended to the `canvas` field of the `Toolkit`;
  * the event pump's currently queued events are the `pump` field, drained
    by `tick`;
  * the loaded font and the texture creator are modelled as function fields
    returning `Except` values, mirroring the fallible backend calls.
Machine integers: u8/u32 fields are `Nat`, i32 fields are `Int`; the single
`as i32` cast in the source is modelled exactly (`i32ofNat`).
-/

namespace RToybox

/-- sdl2::pixels::Color — four byte channels. -/
structure Color where
  r : Nat
  g : Nat
  b : Nat
  a : Nat
deriving DecidableEq, Repr

/-- Color::RGBA constructor. -/
def Color.RGBA (r g b a : Nat) : Color := ⟨r, g, b, a⟩

/-- sdl2::keyboard::Keycode, reduced to the one key the source inspects
(Escape) versus every other key (tagged by its code). -/
inductive Keycode where
  | escape
  | otherKey (code : Nat)
deriving DecidableEq, Repr

/-- sdl2::event::Event, reduced to the shapes the source matches on:
Quit {..}, KeyDown { keycode, .. } and every other event shape. -/
inductive Event where
  | quit (timestamp : Nat)
  | keyDown (timestamp : Nat) (keycode : Option Keycode)
  | otherEvent (timestamp : Nat)
deriving DecidableEq, Repr

/-- std::io::Error, reduced to its message. -/
structure IOErr where
  msg : String
deriving DecidableEq, Repr

/-- ToolkitError (lib.rs lines 17-34). -/
inductive ToolkitError where
  | SDLError (s : String)
  | TTFError (e : IOErr)
  | IntOverflow
  | AlreadyInitialized
  | NotMultOfTwo
  | InvalidText
  | NoTabs
deriving DecidableEq, Repr

/-- sdl2::video::WindowBuildError (external crate). -/
inductive WindowBuildError where
  | HeightOverflows (h : Nat)
  | WidthOverflows (w : Nat)
  | InvalidTitle
  | SdlError (s : String)
deriving DecidableEq, Repr

/-- Display rendering of WindowBuildError (external crate's to_string). -/
def WindowBuildError.message : WindowBuildError → String
  | .HeightOverflows h => "Window height overflows an integer: " ++ toString h
  | .WidthOverflows w => "Window width overflows an integer: " ++ toString w
  | .InvalidTitle => "Invalid window title"
  | .SdlError s => "SDL error: " ++ s

/-- sdl2::IntegerOrSdlError (external crate). -/
inductive IntegerOrSdlError where
  | IntegerOverflows (what : String) (value : Nat)
  | SdlError (s : String)
deriving DecidableEq, Repr

/-- sdl2::ttf::InitError (external crate). -/
inductive InitError where
  | AlreadyInitializedError
  | InitializationError (e : IOErr)
deriving DecidableEq, Repr

/-- sdl2::ttf::FontError (external crate). -/
inductive FontError where
  | InvalidLatin1Text (t : String)
  | SdlError (s : String)
deriving DecidableEq, Repr

/-- sdl2::render::TextureValueError (external crate). -/
inductive TextureValueError where
  | WidthOverflows (w : Nat)
  | HeightOverflows (h : Nat)
  | WidthMustBeMultipleOfTwoForFormat (w : Nat) (fmt : Nat)
  | SdlError (s : String)
deriving DecidableEq, Repr

/-- impl From<String> for ToolkitError (lib.rs 51-55). -/
def ToolkitError.fromString (s : String) : ToolkitError := .SDLError s

/-- impl From<WindowBuildError> for ToolkitError (lib.rs 57-61). -/
def ToolkitError.fromWindowBuildError (e : WindowBuildError) : ToolkitError :=
  .SDLError e.message

/-- impl From<IntegerOrSdlError> for ToolkitError (lib.rs 63-70). -/
def ToolkitError.fromIntegerOrSdlError : IntegerOrSdlError → ToolkitError
  | .IntegerOverflows _ _ => .IntOverflow
  | .SdlError se => .SDLError se

/-- impl From<InitError> for ToolkitError (lib.rs 72-79). -/
def ToolkitError.fromInitError : InitError → ToolkitError
  | .AlreadyInitializedError => .AlreadyInitialized
  | .InitializationError err => .TTFError err

/-- impl From<FontError> for ToolkitError (lib.rs 81-88). -/
def ToolkitError.fromFontError : FontError → ToolkitError
  | .InvalidLatin1Text _ => .InvalidText
  | .SdlError se => .SDLError se

/-- impl From<TextureValueError> for ToolkitError (lib.rs 90-99). -/
def ToolkitError.fromTextureValueError : TextureValueError → ToolkitError
  | .WidthOverflows _ => .IntOverflow
  | .HeightOverflows _ => .IntOverflow
  | .WidthMustBeMultipleOfTwoForFormat _ _ => .NotMultOfTwo
  | .SdlError se => .SDLError se

/-- A rendered pixel surface (opaque backend value, identified by an id). -/
structure Surface where
  id : Nat
deriving DecidableEq, Repr

/-- An SDL texture.  SDL stores texture dimensions as nonnegative C ints, so
the u32 values returned by query() always fit in 31 bits; that backend
representation invariant is carried in the structure. -/
structure Texture where
  width : Nat
  height : Nat
  width_lt : width < 2 ^ 31
  height_lt : height < 2 ^ 31

/-- Result of Texture::query() — the pixel width and height. -/
structure TextureQuery where
  width : Nat
  height : Nat
deriving DecidableEq, Repr

def Texture.query (t : Texture) : TextureQuery := ⟨t.width, t.height⟩

/-- The loaded sdl2::ttf::Font: `font.render(input).blended(color)` modelled
as one fallible call from the text and the color to a surface. -/
structure Font where
  render : String → Color → Except FontError Surface

/-- The canvas's TextureCreator: create_texture_from_surface. -/
structure TextureCreator where
  create_texture_from_surface : Surface → Except TextureValueError Texture

/-- The `width as i32` / `height as i32` cast of the source: a u32 value
reinterpreted as a signed 32-bit integer. -/
def i32ofNat (n : Nat) : Int :=
  if n % 2 ^ 32 < 2 ^ 31 then ((n % 2 ^ 32 : Nat) : Int)
  else ((n % 2 ^ 32 : Nat) : Int) - 2 ^ 32

/-- ButtonType (lib.rs 112-115). -/
inductive ButtonType where
  | Normal
deriving DecidableEq, Repr

/-- Button (lib.rs 118-126). -/
structure Button where
  name : String
  x : Int
  y : Int
  w : Int
  h : Int
  typ : ButtonType
  text : Texture

/-- Tab (lib.rs 169-174). -/
structure Tab where
  items : List Button
  item_pos : Nat
  name : String

/-- Tab::new (lib.rs 177-183). -/
def Tab.new (name : String) : Tab :=
  { items := [], item_pos := 0, name := name }

/-- One recorded backend side effect: a canvas call or a draw trace line. -/
inductive CanvasOp where
  | setDrawColor (c : Color)
  | clear
  | present
  | drawMsg (s : String)
deriving DecidableEq, Repr

/-- impl Drawable for Button (lib.rs 162-167): prints a trace line,
always succeeds. -/
def Button.draw (b : Button) : List CanvasOp × Except ToolkitError Unit :=
  ([.drawMsg ("Drawing button " ++ b.name)], .ok ())

/-- The loop body of Tab::draw (lib.rs 187-194): draw each button in order,
short-circuiting on the first failure. -/
def Tab.drawItems : List Button → List CanvasOp × Except ToolkitError Unit
  | [] => ([], .ok ())
  | b :: rest =>
    match b.draw.snd with
    | .error e => (b.draw.fst, .error e)
    | .ok _ => (b.draw.fst ++ (Tab.drawItems rest).fst, (Tab.drawItems rest).snd)

/-- impl Drawable for Tab (lib.rs 187-194). -/
def Tab.draw (t : Tab) : List CanvasOp × Except ToolkitError Unit :=
  Tab.drawItems t.items

/-- A Box<dyn Drawable> in the Toolkit's top-level item list.  The two
in-crate implementors (Button, Tab) are embedded; `dynItem` stands for any
other implementor of the trait, with its draw side effect recorded under
its name and an arbitrary draw result. -/
inductive Drawable where
  | button (b : Button)
  | tab (t : Tab)
  | dynItem (name : String) (result : Except ToolkitError Unit)

/-- Dynamic dispatch of Drawable::draw. -/
def Drawable.draw : Drawable → List CanvasOp × Except ToolkitError Unit
  | .button b => b.draw
  | .tab t => t.draw
  | .dynItem name result => ([.drawMsg name], result)

/-- Toolkit (lib.rs 196-211).  The opaque backend handles (ctx, video, ttf)
carry no observable behaviour and are omitted; the canvas is its recorded
trace of operations, the event pump its queue of pending events. -/
structure Toolkit where
  tabs : List Tab
  tab_pos : Nat
  items : List Drawable
  run : Bool
  pump : List Event
  font : Font
  text_creator : TextureCreator
  bg_color : Color
  canvas : List CanvasOp

/-- The `for btn in &self.items { btn.draw()?; }` loop of redraw
(lib.rs 253-255): accumulated trace and first failure. -/
def drawAll : List Drawable → List CanvasOp × Except ToolkitError Unit
  | [] => ([], .ok ())
  | d :: ds =>
    match d.draw.snd with
    | .error e => (d.draw.fst, .error e)
    | .ok _ => (d.draw.fst ++ (drawAll ds).fst, (drawAll ds).snd)

/-- The `match self.tabs.get(self.tab_pos)` step of redraw (lib.rs 257-260):
draw the active tab if present, do nothing otherwise. -/
def Toolkit.tabTrace (tk : Toolkit) : List CanvasOp × Except ToolkitError Unit :=
  match tk.tabs[tk.tab_pos]? with
  | some tab => tab.draw
  | none => ([], .ok ())

/-- The canvas operations emitted by one redraw pass and its result
(lib.rs 249-265): set draw color, clear, draw top-level items
(short-circuiting), draw the active tab, present. -/
def Toolkit.redrawTrace (tk : Toolkit) : List CanvasOp × Except ToolkitError Unit :=
  match (drawAll tk.items).snd with
  | .error e =>
    ([CanvasOp.setDrawColor tk.bg_color, CanvasOp.clear] ++ (drawAll tk.items).fst,
     .error e)
  | .ok _ =>
    match tk.tabTrace.snd with
    | .error e =>
      ([CanvasOp.setDrawColor tk.bg_color, CanvasOp.clear]
         ++ (drawAll tk.items).fst ++ tk.tabTrace.fst,
       .error e)
    | .ok _ =>
      ([CanvasOp.setDrawColor tk.bg_color, CanvasOp.clear]
         ++ (drawAll tk.items).fst ++ tk.tabTrace.fst ++ [CanvasOp.present],
       .ok ())

/-- Toolkit::redraw (lib.rs 249-265): appends the pass's operations to the
canvas trace and returns the pass's result. -/
def Toolkit.redraw (tk : Toolkit) : Toolkit × Except ToolkitError Unit :=
  ({ tk with canvas := tk.canvas ++ tk.redrawTrace.fst }, tk.redrawTrace.snd)

/-- The per-event body of the tick drain loop (lib.rs 228-241). -/
def applyEvent (run : Bool) : Event → Bool
  | .quit _ => false
  | .keyDown _ keycode =>
    match keycode with
    | some .escape => false
    | _ => run
  | .otherEvent _ => run

/-- The event drain loop of tick (lib.rs 227-242): every pending event is
consumed and folded into the run flag. -/
def Toolkit.drain (tk : Toolkit) : Toolkit :=
  { tk with run := tk.pump.foldl applyEvent tk.run, pump := [] }

/-- Toolkit::tick (lib.rs 226-247): drain every pending event, apply the
transition rule to the run flag, redraw (propagating its error), return the
run flag. -/
def Toolkit.tick (tk : Toolkit) : Toolkit × Except ToolkitError Bool :=
  (tk.drain.redraw.fst,
    match tk.drain.redraw.snd with
    | .error e => .error e
    | .ok _ => .ok tk.drain.redraw.fst.run)

/-- Toolkit::render_text (lib.rs 267-272): blended render in opaque white,
then texture creation, each error converted by its From impl. -/
def Toolkit.render_text (tk : Toolkit) (input : String) : Except ToolkitError Texture :=
  match tk.font.render input (Color.RGBA 255 255 255 255) with
  | .error e => .error (ToolkitError.fromFontError e)
  | .ok surface =>
    match tk.text_creator.create_texture_from_surface surface with
    | .error e => .error (ToolkitError.fromTextureValueError e)
    | .ok texture => .ok texture

/-- Button::new (lib.rs 136-148). -/
def Button.new (tk : Toolkit) (name : String) (x y : Int) :
    Except ToolkitError Button :=
  match tk.render_text name with
  | .error e => .error e
  | .ok texture =>
    .ok { name := name, x := x, y := y,
          w := i32ofNat texture.query.width, h := i32ofNat texture.query.height,
          typ := ButtonType.Normal, text := texture }

/-- Toolkit::add_tab (lib.rs 274-278). -/
def Toolkit.add_tab (tk : Toolkit) (name : String) :
    Toolkit × Except ToolkitError Unit :=
  ({ tk with tabs := tk.tabs ++ [Tab.new name] }, .ok ())

/-- Toolkit::set_alpha (lib.rs 319-321). -/
def Toolkit.set_alpha (tk : Toolkit) (alpha : Nat) : Toolkit :=
  { tk with bg_color := Color.RGBA 0 0 0 alpha }

/-- The Toolkit state produced by a successful Toolkit::new (lib.rs 288-317),
parameterized by the backend's font and texture creator: empty tab list,
active tab index 0, empty item list, run flag true, background RGBA(0,0,0,100),
and one initial clear-and-present already on the canvas. -/
def Toolkit.new (font : Font) (text_creator : TextureCreator) : Toolkit :=
  { tabs := [], tab_pos := 0, items := [], run := true, pump := []
  , font := font, text_creator := text_creator
  , bg_color := Color.RGBA 0 0 0 100
  , canvas := [CanvasOp.setDrawColor (Color.RGBA 0 0 0 100), CanvasOp.clear,
               CanvasOp.present] }

/-- States reachable through the public interface: a fresh Toolkit, events
arriving in the pump, and the operations tick, add_tab, set_alpha, redraw. -/
inductive Reachable : Toolkit → Prop where
  | init (font : Font) (tc : TextureCreator) : Reachable (Toolkit.new font tc)
  | arrive (tk : Toolkit) (evs : List Event) :
      Reachable tk → Reachable { tk with pump := tk.pump ++ evs }
  | tick (tk : Toolkit) : Reachable tk → Reachable tk.tick.fst
  | add_tab (tk : Toolkit) (name : String) :
      Reachable tk → Reachable (tk.add_tab name).fst
  | set_alpha (tk : Toolkit) (a : Nat) :
      Reachable tk → Reachable (tk.set_alpha a)
  | redraw (tk : Toolkit) : Reachable tk → Reachable tk.redraw.fst

/-- An event that stops the run loop: Quit, or KeyDown with keycode Escape. -/
def stopEvent : Event → Bool
  | .quit _ => true
  | .keyDown _ (some .escape) => true
  | _ => false

/-- A concrete backend font whose renders always succeed. -/
def font0 : Font := ⟨fun _ _ => .ok ⟨0⟩⟩

/-- A concrete texture creator producing a fixed-size texture. -/
def tc0 : TextureCreator :=
  ⟨fun _ => .ok ⟨10, 20, by norm_num, by norm_num⟩⟩

/-- A freshly constructed Toolkit over the concrete backend. -/
def tkFresh : Toolkit := Toolkit.new font0 tc0

/-- The fresh Toolkit after one tick that drained a single Quit event:
a reachable state whose run flag is false and whose pump is empty. -/
def tkStopped : Toolkit := ({ tkFresh with pump := [Event.quit 0] }).tick.fst

/-- A fresh Toolkit after add_tab("X") then add_tab("Y"). -/
def twoTabs (f : Font) (tc : TextureCreator) : Toolkit :=
  (((Toolkit.new f tc).add_tab "X").fst.add_tab "Y").fst

/-- A top-level item list whose second drawable fails. -/
def failItems : List Drawable :=
  [Drawable.dynItem "a" (.ok ()),
   Drawable.dynItem "b" (.error (ToolkitError.SDLError "boom"))]

/-- A fresh Toolkit carrying the failing item list. -/
def tkFail : Toolkit := { tkFresh with items := failItems }

lemma applyEvent_eq (b : Bool) (e : Event) :
    applyEvent b e = (b && !stopEvent e) := by
  cases e with
  | quit ts => simp [applyEvent, stopEvent]
  | keyDown ts kc =>
    match kc with
    | none => simp [applyEvent, stopEvent]
    | some Keycode.escape => simp [applyEvent, stopEvent]
    | some (Keycode.otherKey c) => simp [applyEvent, stopEvent]
  | otherEvent ts => simp [applyEvent, stopEvent]

lemma foldl_applyEvent (l : List Event) (b : Bool) :
    l.foldl applyEvent b = (b && !(l.any stopEvent)) := by
  induction l generalizing b with
  | nil => simp
  | cons e l ih =>
    simp only [List.foldl_cons, List.any_cons, ih, applyEvent_eq,
      Bool.not_or, Bool.and_assoc]

lemma tick_fst_run (tk : Toolkit) :
    tk.tick.fst.run = (tk.run && !(tk.pump.any stopEvent)) := by
  show tk.pump.foldl applyEvent tk.run = _
  exact foldl_applyEvent _ _

lemma tick_snd_ok {tk : Toolkit} {b : Bool} (h : tk.tick.snd = Except.ok b) :
    b = tk.tick.fst.run := by
  unfold Toolkit.tick at h ⊢
  cases hr : tk.drain.redraw.snd with
  | error e => rw [hr] at h; simp at h
  | ok u => rw [hr] at h; simp at h; simp [h]

lemma i32ofNat_of_lt {n : Nat} (h : n < 2 ^ 31) : (i32ofNat n : Int) = n := by
  unfold i32ofNat
  have h32 : n % 2 ^ 32 = n := Nat.mod_eq_of_lt (lt_trans h (by norm_num))
  rw [h32, if_pos h]

lemma drawItems_fst_drawMsg (bs : List Button) :
    ∀ op ∈ (Tab.drawItems bs).fst, ∃ s, op = CanvasOp.drawMsg s := by
  induction bs with
  | nil => intro op hop; simp [Tab.drawItems] at hop
  | cons b rest ih =>
    intro op hop
    simp only [Tab.drawItems, Button.draw, List.mem_append] at hop
    rcases hop with h | h
    · simp at h; exact ⟨_, h⟩
    · exact ih op h

lemma draw_fst_drawMsg (d : Drawable) :
    ∀ op ∈ d.draw.fst, ∃ s, op = CanvasOp.drawMsg s := by
  cases d with
  | button b => intro op hop; simp [Drawable.draw, Button.draw] at hop; exact ⟨_, hop⟩
  | tab t => exact drawItems_fst_drawMsg t.items
  | dynItem n r => intro op hop; simp [Drawable.draw] at hop; exact ⟨_, hop⟩

lemma drawAll_fail {n : Nat} {l : List Drawable} {d : Drawable} {e : ToolkitError}
    (hd : l[n]? = some d) (hfail : d.draw.snd = Except.error e)
    (hpre : ∀ i, i < n → ∀ x, l[i]? = some x → x.draw.snd = Except.ok ()) :
    drawAll l = (((l.take (n+1)).map (fun x => x.draw.fst)).flatten,
      Except.error e) := by
  induction n generalizing l with
  | zero =>
    cases l with
    | nil => simp at hd
    | cons a l =>
      rw [List.getElem?_cons_zero, Option.some_inj] at hd
      subst hd
      unfold drawAll
      rw [hfail]
      simp
  | succ n ih =>
    cases l with
    | nil => simp at hd
    | cons a l =>
      have ha : a.draw.snd = Except.ok () :=
        hpre 0 (Nat.succ_pos n) a (List.getElem?_cons_zero)
      have hrest := ih (l := l) (by simpa using hd)
        (fun i hi x hx => hpre (i+1) (Nat.succ_lt_succ hi) x (by simpa using hx))
      unfold drawAll
      rw [ha, hrest]
      simp

lemma drawAll_ok_of_all_ok {l : List Drawable}
    (h : ∀ x ∈ l, x.draw.snd = Except.ok ()) :
    (drawAll l).snd = Except.ok () := by
  induction l with
  | nil => rfl
  | cons a l ih =>
    have ha : a.draw.snd = Except.ok () := h a (List.mem_cons_self a l)
    unfold drawAll
    rw [ha]
    exact ih (fun x hx => h x (List.mem_cons_of_mem a hx))

lemma redrawTrace_head (tk : Toolkit) :
    ∃ rest, tk.redrawTrace.fst
      = CanvasOp.setDrawColor tk.bg_color :: CanvasOp.clear :: rest := by
  unfold Toolkit.redrawTrace
  cases h1 : (drawAll tk.items).snd with
  | error e => exact ⟨_, rfl⟩
  | ok u =>
    cases h2 : tk.tabTrace.snd with
    | error e => exact ⟨_, rfl⟩
    | ok u2 => exact ⟨_, rfl⟩

lemma tab_draw_ok {t : Tab} (h : t.items = []) :
    t.draw = ([], Except.ok ()) := by
  show Tab.drawItems t.items = _
  rw [h]
  rfl

lemma redrawTrace_empty {tk : Toolkit} (hitems : tk.items = [])
    (htab : tk.tabs[tk.tab_pos]? = none) :
    tk.redrawTrace
      = ([CanvasOp.setDrawColor tk.bg_color, CanvasOp.clear, CanvasOp.present],
         Except.ok ()) := by
  have h1 : drawAll tk.items = ([], Except.ok ()) := by rw [hitems]; rfl
  have h2 : tk.tabTrace = ([], Except.ok ()) := by
    unfold Toolkit.tabTrace
    rw [htab]
  unfold Toolkit.redrawTrace
  rw [h1, h2]
  rfl

lemma redrawTrace_snd_ok {tk : Toolkit} (hitems : tk.items = [])
    (htabs : ∀ t ∈ tk.tabs, t.items = []) :
    tk.redrawTrace.snd = Except.ok () := by
  have h1 : drawAll tk.items = ([], Except.ok ()) := by rw [hitems]; rfl
  have h2 : tk.tabTrace.snd = Except.ok () := by
    unfold Toolkit.tabTrace
    cases hg : tk.tabs[tk.tab_pos]? with
    | none => rfl
    | some t =>
      have hm : t ∈ tk.tabs := List.getElem?_mem hg
      simp [tab_draw_ok (htabs t hm)]
  unfold Toolkit.redrawTrace
  rw [h1]
  cases h3 : tk.tabTrace.snd with
  | error e => rw [h3] at h2; simp at h2
  | ok u => rfl

lemma reachable_inv {tk : Toolkit} (h : Reachable tk) :
    tk.items = [] ∧ ∀ t ∈ tk.tabs, t.items = [] := by
  induction h with
  | init f tc =>
    refine ⟨rfl, ?_⟩
    intro t ht
    simp [Toolkit.new] at ht
  | arrive tk evs _ ih => exact ih
  | tick tk _ ih => exact ih
  | add_tab tk name _ ih =>
    refine ⟨ih.1, ?_⟩
    intro t ht
    rcases List.mem_append.mp ht with h1 | h2
    · exact ih.2 t h1
    · simp at h2
      subst h2
      rfl
  | set_alpha tk a _ ih => exact ih
  | redraw tk _ ih => exact ih

/-- C1: after a call to tick, the run flag is false whenever the drained queue
contained a quit event at any position or a key-press whose key is escape at
any position; if no such event was queued the run flag is unchanged; every
individual non-quit, non-escape event (any other key, or no key identifier)
leaves the flag unchanged; and a tick that returns a value returns the
post-drain value of the run flag. -/
theorem tick_run_flag_spec (tk : Toolkit) :
    (((∃ ts, Event.quit ts ∈ tk.pump)
        ∨ (∃ ts, Event.keyDown ts (some Keycode.escape) ∈ tk.pump))
      → tk.tick.fst.run = false)
    ∧ ((∀ e ∈ tk.pump, stopEvent e = false) → tk.tick.fst.run = tk.run)
    ∧ (∀ (b : Bool) (e : Event), stopEvent e = false → applyEvent b e = b)
    ∧ (∀ b, tk.tick.snd = Except.ok b → b = tk.tick.fst.run) := by
  refine ⟨?_, ?_, ?_, fun b h => tick_snd_ok h⟩
  · rintro (⟨ts, hts⟩ | ⟨ts, hts⟩) <;>
    · rw [tick_fst_run]
      have hasStop : tk.pump.any stopEvent = true :=
        List.any_eq_true.mpr ⟨_, hts, rfl⟩
      simp [hasStop]
  · intro hnone
    rw [tick_fst_run]
    have noStop : tk.pump.any stopEvent = false := by
      simp only [List.any_eq_false]
      intro e he
      simp [hnone e he]
    simp [noStop]
  · intro b e he
    rw [applyEvent_eq, he]
    simp

/-- C1 witness: applied to a fresh Toolkit with one pending quit event, and to
one with an empty queue. -/
theorem tick_run_flag_spec_witness :
    ({ tkFresh with pump := [Event.quit 0] } : Toolkit).tick.fst.run = false
    ∧ tkFresh.tick.fst.run = tkFresh.run
    ∧ (true : Bool) = tkFresh.tick.fst.run := by
  refine ⟨(tick_run_flag_spec _).1 (Or.inl ⟨0, ?_⟩),
    (tick_run_flag_spec tkFresh).2.1 ?_,
    (tick_run_flag_spec tkFresh).2.2.2 true ?_⟩
  · simp
  · intro e he
    simp [tkFresh, Toolkit.new] at he
  · rfl

/-- C2 counterexample: a Toolkit reachable through the public interface whose
pending queue is empty (so it contains no quit and no escape key-press), yet
whose tick succeeds and returns false rather than true. -/
theorem tick_nonstop_cex :
    Reachable tkStopped
    ∧ tkStopped.pump = []
    ∧ tkStopped.tick.snd = Except.ok false := by
  refine ⟨?_, rfl, rfl⟩
  exact Reachable.tick _ (Reachable.arrive tkFresh [Event.quit 0]
    (Reachable.init font0 tc0))

/-- C2 (amended): for every Toolkit whose run flag is true (the Running state)
and whose pending queue contains no quit event and no escape key-press, a tick
that succeeds returns true. -/
theorem tick_nonstop_returns_true (tk : Toolkit) (hrun : tk.run = true)
    (hq : ∀ e ∈ tk.pump, stopEvent e = false) :
    ∀ b, tk.tick.snd = Except.ok b → b = true := by
  intro b h
  rw [tick_snd_ok h, tick_fst_run, hrun]
  have noStop : tk.pump.any stopEvent = false := by
    simp only [List.any_eq_false]
    intro e he
    simp [hq e he]
  simp [noStop]

/-- C2 witness: the amended theorem applied to a fresh Toolkit with an empty
queue, whose tick returns true. -/
theorem tick_nonstop_returns_true_witness : (true : Bool) = true := by
  refine tick_nonstop_returns_true tkFresh rfl ?_ true rfl
  intro e he
  simp [tkFresh, Toolkit.new] at he

/-- C3: each backend error conversion yields exactly the mapped ToolkitError
kind — raw message and window-build failure to SDLError (the spec's
BackendError) carrying the message; integer overflow in the union and
width/height overflow in texture creation to IntOverflow; already-live font
subsystem to AlreadyInitialized; font-subsystem I/O fault to TTFError carrying
it; text not encodable to InvalidText; odd width for the format to
NotMultOfTwo; every remaining case to SDLError carrying the message. -/
theorem toolkitError_mapping_table :
    (∀ s, ToolkitError.fromString s = ToolkitError.SDLError s)
    ∧ (∀ e, ToolkitError.fromWindowBuildError e = ToolkitError.SDLError e.message)
    ∧ (∀ w v, ToolkitError.fromIntegerOrSdlError (.IntegerOverflows w v)
        = ToolkitError.IntOverflow)
    ∧ (∀ s, ToolkitError.fromIntegerOrSdlError (.SdlError s)
        = ToolkitError.SDLError s)
    ∧ (ToolkitError.fromInitError .AlreadyInitializedError
        = ToolkitError.AlreadyInitialized)
    ∧ (∀ err, ToolkitError.fromInitError (.InitializationError err)
        = ToolkitError.TTFError err)
    ∧ (∀ t, ToolkitError.fromFontError (.InvalidLatin1Text t)
        = ToolkitError.InvalidText)
    ∧ (∀ s, ToolkitError.fromFontError (.SdlError s) = ToolkitError.SDLError s)
    ∧ (∀ w, ToolkitError.fromTextureValueError (.WidthOverflows w)
        = ToolkitError.IntOverflow)
    ∧ (∀ h, ToolkitError.fromTextureValueError (.HeightOverflows h)
        = ToolkitError.IntOverflow)
    ∧ (∀ w f, ToolkitError.fromTextureValueError
        (.WidthMustBeMultipleOfTwoForFormat w f) = ToolkitError.NotMultOfTwo)
    ∧ (∀ s, ToolkitError.fromTextureValueError (.SdlError s)
        = ToolkitError.SDLError s) :=
  ⟨fun _ => rfl, fun _ => rfl, fun _ _ => rfl, fun _ => rfl, rfl, fun _ => rfl,
   fun _ => rfl, fun _ => rfl, fun _ => rfl, fun _ => rfl, fun _ _ => rfl,
   fun _ => rfl⟩

/-- C6: add_tab always succeeds and appends a new empty Tab (name as given,
empty button list, cursor 0) to the end of the tab list, leaving every other
Toolkit field unchanged; two calls on a fresh Toolkit yield tabs X then Y with
the active index still 0, referring to X. -/
theorem add_tab_always_appends (tk : Toolkit) (name : String) :
    (tk.add_tab name).snd = Except.ok ()
    ∧ (tk.add_tab name).fst.tabs = tk.tabs ++ [Tab.new name]
    ∧ Tab.new name = { items := [], item_pos := 0, name := name }
    ∧ (tk.add_tab name).fst.tab_pos = tk.tab_pos
    ∧ (tk.add_tab name).fst.run = tk.run
    ∧ (tk.add_tab name).fst.bg_color = tk.bg_color
    ∧ (tk.add_tab name).fst.items = tk.items
    ∧ (tk.add_tab name).fst.pump = tk.pump
    ∧ (∀ (f : Font) (tc : TextureCreator),
        (twoTabs f tc).tabs.length = 2
        ∧ (twoTabs f tc).tabs.map Tab.name = ["X", "Y"]
        ∧ (twoTabs f tc).tab_pos = 0
        ∧ Option.map Tab.name ((twoTabs f tc).tabs[(twoTabs f tc).tab_pos]?)
            = some "X") :=
  ⟨rfl, rfl, rfl, rfl, rfl, rfl, rfl, rfl, fun _ _ => ⟨rfl, rfl, rfl, rfl⟩⟩

/-- C4: when the drawable at index n is the first failing one in the top-level
list, the redraw pass emits exactly the set-color and clear steps followed by
the side effects of the drawables at indices 0 through n in list order, never
presents the canvas (in particular the active tab is not rendered), and both
redraw and tick return that drawable's error. -/
theorem redraw_abort_on_first_failure (tk : Toolkit) (n : Nat) (d : Drawable)
    (e : ToolkitError)
    (hd : tk.items[n]? = some d)
    (hfail : d.draw.snd = Except.error e)
    (hpre : ∀ i, i < n → ∀ x, tk.items[i]? = some x
      → x.draw.snd = Except.ok ()) :
    tk.redraw.fst.canvas
      = tk.canvas ++ [CanvasOp.setDrawColor tk.bg_color, CanvasOp.clear]
        ++ ((tk.items.take (n+1)).map (fun x => x.draw.fst)).flatten
    ∧ CanvasOp.present ∉ List.drop tk.canvas.length tk.redraw.fst.canvas
    ∧ tk.redraw.snd = Except.error e
    ∧ tk.tick.snd = Except.error e := by
  have hall := drawAll_fail hd hfail hpre
  have htrace : tk.redrawTrace
      = ([CanvasOp.setDrawColor tk.bg_color, CanvasOp.clear]
          ++ ((tk.items.take (n+1)).map (fun x => x.draw.fst)).flatten,
         Except.error e) := by
    unfold Toolkit.redrawTrace
    rw [hall]
  have hcanvas : tk.redraw.fst.canvas
      = tk.canvas ++ [CanvasOp.setDrawColor tk.bg_color, CanvasOp.clear]
        ++ ((tk.items.take (n+1)).map (fun x => x.draw.fst)).flatten := by
    show tk.canvas ++ tk.redrawTrace.fst = _
    rw [htrace]
    simp [List.append_assoc]
  refine ⟨hcanvas, ?_, ?_, ?_⟩
  · rw [hcanvas, List.append_assoc, List.drop_left]
    intro hmem
    rcases List.mem_append.mp hmem with h1 | h2
    · simp at h1
    · obtain ⟨l, hl, hpl⟩ := List.mem_flatten.mp h2
      obtain ⟨x, _, rfl⟩ := List.mem_map.mp hl
      obtain ⟨s, hs⟩ := draw_fst_drawMsg x _ hpl
      exact CanvasOp.noConfusion hs
  · show tk.redrawTrace.snd = _
    rw [htrace]
  · have hsnd : tk.drain.redraw.snd = Except.error e := by
      show tk.redrawTrace.snd = _
      rw [htrace]
    unfold Toolkit.tick
    rw [hsnd]

/-- C4 witness: a Toolkit whose second top-level drawable fails; only the
first two drawables are rendered and the error propagates to tick. -/
theorem redraw_abort_on_first_failure_witness :
    tkFail.redraw.fst.canvas
      = tkFail.canvas ++ [CanvasOp.setDrawColor tkFail.bg_color, CanvasOp.clear]
        ++ ((tkFail.items.take 2).map (fun x => x.draw.fst)).flatten
    ∧ CanvasOp.present ∉ List.drop tkFail.canvas.length tkFail.redraw.fst.canvas
    ∧ tkFail.redraw.snd = Except.error (ToolkitError.SDLError "boom")
    ∧ tkFail.tick.snd = Except.error (ToolkitError.SDLError "boom") := by
  refine redraw_abort_on_first_failure tkFail 1
    (Drawable.dynItem "b" (.error (ToolkitError.SDLError "boom")))
    (ToolkitError.SDLError "boom") rfl rfl ?_
  intro i hi x hx
  obtain rfl : i = 0 := Nat.lt_one_iff.mp hi
  simp [tkFail, failItems] at hx
  subst hx
  rfl

/-- C5: set_alpha(a) makes the background color RGBA(0,0,0,a), so the next
redraw clears the canvas with exactly that draw color; the color is determined
solely by the most recent set_alpha call (last write wins) and repeating the
call is idempotent. -/
theorem set_alpha_last_write_wins (tk : Toolkit) (a b : Nat) :
    (tk.set_alpha a).bg_color = Color.RGBA 0 0 0 a
    ∧ (∃ rest, (tk.set_alpha a).redraw.fst.canvas
        = tk.canvas ++ CanvasOp.setDrawColor (Color.RGBA 0 0 0 a)
            :: CanvasOp.clear :: rest)
    ∧ (tk.set_alpha b).set_alpha a = tk.set_alpha a
    ∧ (tk.set_alpha a).set_alpha a = tk.set_alpha a := by
  refine ⟨rfl, ?_, rfl, rfl⟩
  obtain ⟨rest, hrest⟩ := redrawTrace_head (tk.set_alpha a)
  refine ⟨rest, ?_⟩
  show (tk.set_alpha a).canvas ++ (tk.set_alpha a).redrawTrace.fst = _
  rw [hrest]
  rfl

/-- C7: with an empty top-level item list and no tab at the active index, a
redraw still sets the draw color, clears and presents the canvas, and
succeeds — the missing tab is not an error. -/
theorem redraw_empty_baseline (tk : Toolkit)
    (hitems : tk.items = []) (htab : tk.tabs[tk.tab_pos]? = none) :
    tk.redraw.fst.canvas
      = tk.canvas ++ [CanvasOp.setDrawColor tk.bg_color, CanvasOp.clear,
          CanvasOp.present]
    ∧ tk.redraw.snd = Except.ok () := by
  have h := redrawTrace_empty hitems htab
  constructor
  · show tk.canvas ++ tk.redrawTrace.fst = _
    rw [h]
  · show tk.redrawTrace.snd = _
    rw [h]

/-- C7 witness: the fresh Toolkit (no items, no tabs) redraws successfully. -/
theorem redraw_empty_baseline_witness :
    tkFresh.redraw.fst.canvas
      = tkFresh.canvas ++ [CanvasOp.setDrawColor tkFresh.bg_color,
          CanvasOp.clear, CanvasOp.present]
    ∧ tkFresh.redraw.snd = Except.ok () :=
  redraw_empty_baseline tkFresh rfl rfl

/-- C8: Button::new returns, on success, a Button with the given name and
coordinates, kind Normal, and width and height equal to the pixel dimensions
of the texture obtained by rendering the name in opaque white through the
toolkit's font; on a font-render or texture-creation failure it returns
exactly the converted ToolkitError. -/
theorem button_new_spec (tk : Toolkit) (name : String) (x y : Int) :
    (∀ s t, tk.font.render name (Color.RGBA 255 255 255 255) = Except.ok s
      → tk.text_creator.create_texture_from_surface s = Except.ok t
      → Button.new tk name x y = Except.ok
          { name := name, x := x, y := y, w := (t.width : Int),
            h := (t.height : Int), typ := ButtonType.Normal, text := t })
    ∧ (∀ fe, tk.font.render name (Color.RGBA 255 255 255 255) = Except.error fe
      → Button.new tk name x y = Except.error (ToolkitError.fromFontError fe))
    ∧ (∀ s te, tk.font.render name (Color.RGBA 255 255 255 255) = Except.ok s
      → tk.text_creator.create_texture_from_surface s = Except.error te
      → Button.new tk name x y
          = Except.error (ToolkitError.fromTextureValueError te)) := by
  refine ⟨?_, ?_, ?_⟩
  · intro s t hs ht
    unfold Button.new Toolkit.render_text
    rw [hs]
    simp [ht, Texture.query, i32ofNat_of_lt t.width_lt,
      i32ofNat_of_lt t.height_lt]
  · intro fe hfe
    unfold Button.new Toolkit.render_text
    rw [hfe]
  · intro s te hs hte
    unfold Button.new Toolkit.render_text
    rw [hs]
    simp [hte]

/-- C8 witness: on the concrete backend the button takes the texture's 10×20
pixel size. -/
theorem button_new_spec_witness :
    Button.new tkFresh "OK" 3 4 = Except.ok
      { name := "OK", x := 3, y := 4, w := 10, h := 20,
        typ := ButtonType.Normal,
        text := ⟨10, 20, by norm_num, by norm_num⟩ } :=
  (button_new_spec tkFresh "OK" 3 4).1 ⟨0⟩ ⟨10, 20, by norm_num, by norm_num⟩
    rfl rfl

/-- C9: Stopped is terminal: once the run flag is false, tick, add_tab,
set_alpha and redraw all leave it false; a further tick still drains the
queue, appends a full redraw pass to the canvas, and returns false when it
succeeds. -/
theorem stopped_state_terminal (tk : Toolkit) (h : tk.run = false) :
    tk.tick.fst.run = false
    ∧ tk.tick.fst.pump = []
    ∧ tk.tick.fst.canvas = tk.canvas ++ tk.redrawTrace.fst
    ∧ (∀ b, tk.tick.snd = Except.ok b → b = false)
    ∧ (∀ name, (tk.add_tab name).fst.run = false)
    ∧ (∀ a, (tk.set_alpha a).run = false)
    ∧ tk.redraw.fst.run = false := by
  have hrun : tk.tick.fst.run = false := by
    rw [tick_fst_run, h]
    simp
  refine ⟨hrun, rfl, rfl, ?_, fun name => h, fun a => h, h⟩
  intro b hb
  rw [tick_snd_ok hb, hrun]

/-- C9 witness: the stopped Toolkit stays stopped across the operations. -/
theorem stopped_state_terminal_witness :
    tkStopped.tick.fst.run = false
    ∧ tkStopped.tick.fst.pump = []
    ∧ tkStopped.redraw.fst.run = false := by
  have h := stopped_state_terminal tkStopped rfl
  exact ⟨h.1, h.2.1, h.2.2.2.2.2.2⟩

/-- C10: in every state reachable through the public interface no operation
returns the NoTabs error: tick, redraw and add_tab cannot produce it (in
reachable states they cannot fail at all), Button::new never produces it for
any input, and none of the backend error conversions used by initialization
produces it. -/
theorem noTabs_never_returned (tk : Toolkit) (h : Reachable tk) :
    (∀ e, tk.tick.snd = Except.error e → e ≠ ToolkitError.NoTabs)
    ∧ (∀ e, tk.redraw.snd = Except.error e → e ≠ ToolkitError.NoTabs)
    ∧ (∀ name, (tk.add_tab name).snd ≠ Except.error ToolkitError.NoTabs)
    ∧ (∀ name x y e, Button.new tk name x y = Except.error e
        → e ≠ ToolkitError.NoTabs)
    ∧ (∀ s, ToolkitError.fromString s ≠ ToolkitError.NoTabs)
    ∧ (∀ e, ToolkitError.fromWindowBuildError e ≠ ToolkitError.NoTabs)
    ∧ (∀ e, ToolkitError.fromIntegerOrSdlError e ≠ ToolkitError.NoTabs)
    ∧ (∀ e, ToolkitError.fromInitError e ≠ ToolkitError.NoTabs)
    ∧ (∀ e, ToolkitError.fromFontError e ≠ ToolkitError.NoTabs)
    ∧ (∀ e, ToolkitError.fromTextureValueError e ≠ ToolkitError.NoTabs) := by
  obtain ⟨hitems, htabs⟩ := reachable_inv h
  have hok : tk.redrawTrace.snd = Except.ok () := redrawTrace_snd_ok hitems htabs
  refine ⟨?_, ?_, ?_, ?_, ?_, ?_, ?_, ?_, ?_, ?_⟩
  · intro e he
    have hok2 : tk.drain.redraw.snd = Except.ok () := hok
    unfold Toolkit.tick at he
    rw [hok2] at he
    simp at he
  · intro e he
    have : Except.ok () = Except.error e := hok.symm.trans he
    simp at this
  · intro name hcon
    simp [Toolkit.add_tab] at hcon
  · intro name x y e he
    unfold Button.new Toolkit.render_text at he
    cases hf : tk.font.render name (Color.RGBA 255 255 255 255) with
    | error fe =>
      rw [hf] at he
      simp only [Except.error.injEq] at he
      subst he
      cases fe <;> simp [ToolkitError.fromFontError]
    | ok s =>
      rw [hf] at he
      cases hc : tk.text_creator.create_texture_from_surface s with
      | error te =>
        simp only [hc, Except.error.injEq] at he
        subst he
        cases te <;> simp [ToolkitError.fromTextureValueError]
      | ok t =>
        simp [hc] at he
  · intro s
    simp [ToolkitError.fromString]
  · intro e
    simp [ToolkitError.fromWindowBuildError]
  · intro e
    cases e <;> simp [ToolkitError.fromIntegerOrSdlError]
  · intro e
    cases e <;> simp [ToolkitError.fromInitError]
  · intro e
    cases e <;> simp [ToolkitError.fromFontError]
  · intro e
    cases e <;> simp [ToolkitError.fromTextureValueError]

/-- C10 witness: on the fresh reachable Toolkit, add_tab does not produce
NoTabs. -/
theorem noTabs_never_returned_witness :
    (tkFresh.add_tab "X").snd ≠ Except.error ToolkitError.NoTabs :=
  (noTabs_never_returned tkFresh (Reachable.init font0 tc0)).2.2.1 "X"

end RToybox
